import Mathlib

/-!
Verification development for the WRICEF data-visualization repository
(`wricef_visualizer.py`, `streamlit_dashboard.py`).

The tabular data handled by the pandas library is modelled shallowly:
a `Dataset` is a list of column names together with a list of rows,
each row a list of cell values aligned positionally with the columns.
Cell values are strings, rational numbers (standing for the floats the
code manipulates), timestamps (a calendar-day number plus a
time-of-day component), or the null marker (NaN/NaT/None).

Operations that the Python code performs through pandas calls that can
raise (missing-column access, aggregating a non-numeric column, taking
the first element of an empty mode/value_counts result) are modelled in
the `Option` monad, `none` standing for a raised exception.
-/

/-- A cell value: string, number (pandas floats modelled as rationals),
timestamp (calendar day number plus a time-of-day component, so that
comparisons "by calendar date only" are expressible), or null (NaN/NaT). -/
inductive Value where
  | str (s : String)
  | num (q : Rat)
  | date (day : Int) (tod : Nat)
  | null
deriving DecidableEq, Repr

/-- A dataframe: column names plus rows of cells aligned positionally. -/
structure Dataset where
  cols : List String
  rows : List (List Value)
deriving DecidableEq, Repr

/-- Well-formedness: every row has exactly one cell per column
(pandas dataframes are never ragged). -/
def Wf (df : Dataset) : Prop := ∀ r ∈ df.rows, r.length = df.cols.length

instance : DecidablePred Wf := fun df =>
  inferInstanceAs (Decidable (∀ r ∈ df.rows, r.length = df.cols.length))

/-- Does the character list `pat` begin the character list `l`? -/
def beginsWith : List Char → List Char → Bool
  | [], _ => true
  | _ :: _, [] => false
  | p :: ps, c :: cs => p == c && beginsWith ps cs

/-- Substring test on character lists (models the Python `in` operator
on strings as used in `prepare_data`). -/
def containsSub (pat : List Char) : List Char → Bool
  | [] => beginsWith pat []
  | c :: rest => beginsWith pat (c :: rest) || containsSub pat rest

/-- `'Date' in col` from `prepare_data`: the column-name test that
selects the date columns. -/
def containsDate (n : String) : Bool :=
  containsSub ['D', 'a', 't', 'e'] n.data

/-- The four effort columns named in `prepare_data`. -/
def effortCols : List String :=
  ["ABAP Effort Forecast (hrs)", "ABAP Actual Effort (hrs)",
   "PI Effort Forecast (hrs)", "PI Actual Effort (hrs)"]

/-- Index of the first column with the given name (pandas column lookup). -/
def colIndex : List String → String → Option Nat
  | [], _ => none
  | c :: cs, n => if c == n then some 0 else (colIndex cs n).map (· + 1)

/-- `df[name]`: the column as a list of cells, or `none` (KeyError)
when the column is absent. Cells past the end of a ragged row read as
null (unreachable on well-formed data). -/
def getColumn (df : Dataset) (name : String) : Option (List Value) :=
  (colIndex df.cols name).map fun i => df.rows.map (fun r => r.getD i Value.null)

/-- The cell of row `r` under column `name` (null when absent). -/
def cellAt (cols : List String) (r : List Value) (name : String) : Value :=
  match colIndex cols name with
  | some i => r.getD i Value.null
  | none => Value.null

/-- Digit value of a character, if it is a decimal digit. -/
def digitVal (c : Char) : Option Nat :=
  if c.isDigit then some (c.toNat - 48) else none

/-- Parse a nonempty run of decimal digits. -/
def digitsToNat (cs : List Char) : Option Nat :=
  if cs.isEmpty then none
  else cs.foldlM (fun a c => (digitVal c).map fun d => a * 10 + d) 0

/-- Split a character list at the first dot, if any. -/
def splitDot : List Char → List Char × Option (List Char)
  | [] => ([], none)
  | c :: cs =>
    if c == '.' then ([], some cs)
    else
      let r := splitDot cs
      (c :: r.1, r.2)

/-- Numeric parsing of a string cell, modelling the common cases of the
library coercion `pd.to_numeric` (optional sign, digits, optional
decimal fraction); anything else fails. -/
def parseNumStr (s : String) : Option Rat :=
  let p := match s.data with
    | '-' :: rest => (true, rest)
    | cs => (false, cs)
  let parts := splitDot p.2
  (digitsToNat parts.1).bind fun ip =>
    match parts.2 with
    | none =>
      let v : Rat := (ip : Rat)
      some (if p.1 then -v else v)
    | some fcs =>
      if fcs.isEmpty then
        let v : Rat := (ip : Rat)
        some (if p.1 then -v else v)
      else
        (digitsToNat fcs).map fun fp =>
          let v : Rat := (ip : Rat) + (fp : Rat) / ((10 : Rat) ^ fcs.length)
          if p.1 then -v else v

/-- `pd.to_numeric(x, errors="coerce")` on one cell: numbers pass
through, parseable numeric strings are converted, everything else
(null, unparseable strings, timestamps in an object column) yields the
null marker, modelled as a failed parse. -/
def parseNum : Value → Option Rat
  | .num q => some q
  | .str s => parseNumStr s
  | .date _ _ => none
  | .null => none

/-- One cell of `pd.to_numeric(col, errors="coerce").fillna(0)`:
parse, then replace a failed parse by 0. -/
def coerceNum (v : Value) : Value :=
  match parseNum v with
  | some q => Value.num q
  | none => Value.num 0

/-- ISO `YYYY-MM-DD` date parsing for string cells, modelling the common
case of the library coercion `pd.to_datetime`; the day number is an
order-preserving encoding of (year, month, day). Richer library parsing
of other date formats is out of scope (external library). -/
def parseDateStr (s : String) : Option (Int × Nat) :=
  match s.splitOn "-" with
  | [ys, ms, ds] =>
    (digitsToNat ys.data).bind fun y =>
    (digitsToNat ms.data).bind fun m =>
    (digitsToNat ds.data).bind fun d =>
      if 1 ≤ m ∧ m ≤ 12 ∧ 1 ≤ d ∧ d ≤ 31 then
        some ((((y : Int) * 12 + (m - 1 : Nat)) * 31 + ((d - 1 : Nat) : Int)), 0)
      else none
  | _ => none

/-- `pd.to_datetime(x, errors="coerce")` on one cell: timestamps pass
through unchanged (time-of-day preserved), parseable date strings are
converted, numbers are read as epoch offsets (modelled as a day
offset), everything else becomes NaT. -/
def parseDate : Value → Option (Int × Nat)
  | .date d t => some (d, t)
  | .str s => parseDateStr s
  | .num q => some (q.floor, 0)
  | .null => none

/-- One cell of date coercion: parse, failures become NaT (null). -/
def coerceDate (v : Value) : Value :=
  match parseDate v with
  | some p => Value.date p.1 p.2
  | none => Value.null

/-- `prepare_data` on one cell of the column named `name`: first the
date coercion when the name contains "Date", then the effort coercion
when the name is one of the four effort columns (the two loops of the
source, applied cell-wise). -/
def prepCell (name : String) (v : Value) : Value :=
  let v1 := if containsDate name then coerceDate v else v
  if name ∈ effortCols then coerceNum v1 else v1

/-- `prepare_data` on one row. -/
def prepRow (cols : List String) (r : List Value) : List Value :=
  (cols.zip r).map fun p => prepCell p.1 p.2

/-- `WRICEFDataVisualizer.prepare_data`: coerce every column whose name
contains "Date" to timestamps (invalid cells become NaT) and every
present effort column to numbers (invalid cells become 0). -/
def prepare (df : Dataset) : Dataset :=
  ⟨df.cols, df.rows.map (prepRow df.cols)⟩

/-- Is the cell a number? -/
def Value.isNum : Value → Bool
  | .num _ => true
  | _ => false

/-- The number in a numeric cell (0 otherwise). -/
def numOf : Value → Rat
  | .num q => q
  | _ => 0

/-- A float-like aggregate value: finite (as a rational), the two
infinities, or NaN. This captures exactly the IEEE behaviours the
code relies on (division by zero giving a signed infinity or NaN, and
NaN being skipped by the pandas mean). -/
inductive RVal where
  | fin (q : Rat)
  | pinf
  | ninf
  | nan
deriving DecidableEq, Repr

/-- Is the aggregate value NaN? -/
def RVal.isNan : RVal → Bool
  | .nan => true
  | _ => false

/-- Float addition on aggregate values. -/
def radd : RVal → RVal → RVal
  | .nan, _ => .nan
  | _, .nan => .nan
  | .pinf, .ninf => .nan
  | .ninf, .pinf => .nan
  | .pinf, _ => .pinf
  | _, .pinf => .pinf
  | .ninf, _ => .ninf
  | _, .ninf => .ninf
  | .fin a, .fin b => .fin (a + b)

/-- Sum of a list of aggregate values. -/
def rsum (xs : List RVal) : RVal := xs.foldl radd (.fin 0)

/-- Division of an aggregate value by a (positive) count. -/
def rdivNat : RVal → Nat → RVal
  | .fin q, n => .fin (q / (n : Rat))
  | .pinf, _ => .pinf
  | .ninf, _ => .ninf
  | .nan, _ => .nan

/-- The pandas `Series.mean`: NaN entries are skipped, infinities are
included; the mean of an empty (or all-NaN) series is NaN. -/
def meanRVal (xs : List RVal) : RVal :=
  let ys := xs.filter (fun v => ! v.isNan)
  if ys.isEmpty then .nan else rdivNat (rsum ys) ys.length

/-- Float division: a zero divisor yields a signed infinity (or NaN
for 0/0) instead of raising. -/
def divR (a b : Rat) : RVal :=
  if b = 0 then (if 0 < a then .pinf else if a < 0 then .ninf else .nan)
  else .fin (a / b)

/-- Elementwise division of two cells, as in the effort-efficiency
Series division: numbers divide as floats, a null on either side gives
NaN, and non-numeric cells make the whole Series operation raise. -/
def divCell : Value → Value → Option RVal
  | .num a, .num b => some (divR a b)
  | .null, .num _ => some .nan
  | .num _, .null => some .nan
  | .null, .null => some .nan
  | _, _ => none

/-- Number of occurrences of a value in a column. -/
def countOf (vs : List Value) (v : Value) : Nat :=
  (vs.filter (fun w => w == v)).length

/-- Drop null cells (pandas `value_counts` and `mode` ignore NaN). -/
def nonNull (vs : List Value) : List Value :=
  vs.filter (fun v => !(v == Value.null))

/-- Distinct values in order of first occurrence. -/
def dedupFO (l : List Value) : List Value :=
  l.foldl (fun acc v => if v ∈ acc then acc else acc ++ [v]) []

/-- A fixed total comparison on cells, used only to model the sorted
order of `Series.mode` (null, then numbers, strings, timestamps). -/
def valLeB : Value → Value → Bool
  | .null, _ => true
  | _, .null => false
  | .num a, .num b => decide (a ≤ b)
  | .num _, _ => true
  | _, .num _ => false
  | .str a, .str b => decide (a ≤ b)
  | .str _, _ => true
  | _, .str _ => false
  | .date a s, .date b t => decide (a < b) || (a == b && s ≤ t)

/-- Least element of a list under `valLeB` (none when empty). -/
def minByLe : List Value → Option Value
  | [] => none
  | v :: vs => some (vs.foldl (fun a b => if valLeB b a then b else a) v)

/-- `col.mode()[0]`: the smallest of the most frequent non-null values;
`none` (an exception) when the column has no non-null value, since
indexing the empty mode Series raises. -/
def mode0 (vs : List Value) : Option Value :=
  let nn := nonNull vs
  let cands := dedupFO nn
  let maxc := cands.foldl (fun m v => max m (countOf nn v)) 0
  minByLe (cands.filter (fun v => countOf nn v == maxc))

/-- `col.value_counts().index[0]` together with `.iloc[0]`: the most
frequent non-null value and its count, ties resolved towards first
occurrence; `none` (IndexError) when the column has no non-null value. -/
def topCount (vs : List Value) : Option (Value × Nat) :=
  let nn := nonNull vs
  match dedupFO nn with
  | [] => none
  | d :: ds =>
    some (ds.foldl (fun best v =>
      let c := countOf nn v
      if best.2 < c then (v, c) else best) (d, countOf nn d))

/-- One cell of a numeric-column aggregate: numbers and nulls are fine
(null is NaN), strings or timestamps make the aggregation raise. -/
def cellNum : Value → Option (Option Rat)
  | .num q => some (some q)
  | .null => some none
  | .str _ => none
  | .date _ _ => none

/-- Apply a fallible cell operation across a column, failing (raising)
as soon as one cell fails. -/
def mapOpt {α β : Type} (f : α → Option β) : List α → Option (List β)
  | [] => some []
  | a :: as => (f a).bind fun b => (mapOpt f as).map fun bs => b :: bs

/-- `col.mean()`: skips NaN; empty or all-NaN gives NaN; raises
(`none`) on a non-numeric column. -/
def colMean (vals : List Value) : Option RVal :=
  (mapOpt cellNum vals).map fun xs =>
    let ys := xs.reduceOption
    if ys.isEmpty then RVal.nan else RVal.fin (ys.sum / (ys.length : Rat))

/-- `col.sum()`: skips NaN (empty sums to 0); raises on a non-numeric
column. -/
def colSum (vals : List Value) : Option RVal :=
  (mapOpt cellNum vals).map fun xs => RVal.fin (xs.reduceOption).sum

/-- Format a rational with one decimal place (the `:.1f` format). -/
def fmt1 (q : Rat) : String :=
  let n : Int := round (q * 10)
  toString (n / 10) ++ "." ++ toString ((n % 10).natAbs)

/-- Render an aggregate value the way Python prints floats. -/
def rvalStr : RVal → String
  | .fin q => fmt1 q
  | .pinf => "inf"
  | .ninf => "-inf"
  | .nan => "nan"

/-- `count/total*100` with one decimal place: a numpy float division,
so a zero total yields inf/nan rather than raising. -/
def pctStr (c total : Nat) : String :=
  rvalStr (divR ((c : Rat) * 100) (total : Rat))

/-- Render a cell into an insight string. -/
def valStr : Value → String
  | .str s => s
  | .num q => fmt1 q
  | .date d t => toString d ++ ":" ++ toString t
  | .null => "nan"

/-- Line 376 of `streamlit_dashboard.py`:
`(df["ABAP Actual Effort (hrs)"] / df["ABAP Effort Forecast (hrs)"]).mean()`.
The division is elementwise over the whole column pair, with no guard
on a zero forecast. -/
def effortEfficiency (df : Dataset) : Option RVal :=
  (getColumn df "ABAP Actual Effort (hrs)").bind fun av =>
  (getColumn df "ABAP Effort Forecast (hrs)").bind fun fv =>
  (mapOpt (fun p => divCell p.1 p.2) (av.zip fv)).map meanRVal

/-- Modelled from the spec: the effort-efficiency aggregate as §4.5
words it, the mean of actual/forecast taken only over the records
whose forecast is nonzero. Stated for comparison with the
implementation `effortEfficiency`. -/
def effortEfficiencySpec (df : Dataset) : Option RVal :=
  (getColumn df "ABAP Actual Effort (hrs)").bind fun av =>
  (getColumn df "ABAP Effort Forecast (hrs)").bind fun fv =>
  let pairs := (av.zip fv).filter fun p =>
    match p.2 with
    | .num b => !(b == 0)
    | _ => false
  (mapOpt (fun p => divCell p.1 p.2) pairs).map meanRVal

/-- `StreamlitWRICEFDashboard.generate_insights` (lines 342-385):
total count, most common WRICEF type, largest implementation, mean and
sum of the ABAP forecast effort (column access unguarded), most common
complexity and priority, and the unguarded effort-efficiency ratio.
`none` models an uncaught exception; the markdown decoration around
each statement is presentation and omitted. -/
def streamlit_generate_insights (df : Dataset) : Option (List String) :=
  let total := df.rows.length
  (getColumn df "WRICEF Type").bind fun wvals =>
  (mode0 wvals).bind fun mcw =>
  let wc := countOf wvals mcw
  let wp := pctStr wc total
  let wname := valStr mcw
  (getColumn df "Implementation").bind fun ivals =>
  (topCount ivals).bind fun itop =>
  let iname := valStr itop.1
  let ic := itop.2
  let ip := pctStr ic total
  (getColumn df "ABAP Effort Forecast (hrs)").bind fun evals =>
  (colMean evals).bind fun avgE =>
  (colSum evals).bind fun sumE =>
  let avgS := rvalStr avgE
  let sumS := rvalStr sumE
  (getColumn df "Complexity").bind fun cvals =>
  (topCount cvals).bind fun ctop =>
  let cname := valStr ctop.1
  let cc := ctop.2
  let cp := pctStr cc total
  (getColumn df "Priority of Delivery").bind fun pvals =>
  (topCount pvals).bind fun ptop =>
  let pname := valStr ptop.1
  let pc := ptop.2
  let pp := pctStr pc total
  (effortEfficiency df).bind fun eff =>
  let effS := rvalStr eff
  some
    [ s!"Total WRICEF items: {total}",
      s!"Most common WRICEF type: {wname} ({wc} items, {wp}%)",
      s!"Largest implementation: {iname} ({ic} items, {ip}%)",
      s!"Average ABAP effort forecast: {avgS} hours",
      s!"Total ABAP effort forecast: {sumS} hours",
      s!"Most common complexity: {cname} ({cc} items, {cp}%)",
      s!"Most common priority: {pname} ({pc} items, {pp}%)",
      s!"Average effort efficiency: {effS} (actual/forecast ratio)" ]

/-- `WRICEFDataVisualizer.generate_insights` (lines 234-270): as the
dashboard variant, except that the two ABAP-effort statements are
guarded by a column-presence check (skipped when the column is
absent), there is no efficiency statement, and a most-common-stage
statement is appended. -/
def visualizer_generate_insights (df : Dataset) : Option (List String) :=
  let total := df.rows.length
  (getColumn df "WRICEF Type").bind fun wvals =>
  (mode0 wvals).bind fun mcw =>
  let wc := countOf wvals mcw
  let wp := pctStr wc total
  let wname := valStr mcw
  (getColumn df "Implementation").bind fun ivals =>
  (topCount ivals).bind fun itop =>
  let iname := valStr itop.1
  let ic := itop.2
  let ip := pctStr ic total
  (match getColumn df "ABAP Effort Forecast (hrs)" with
    | some evals =>
      (colMean evals).bind fun avgE =>
      (colSum evals).bind fun sumE =>
      let avgS := rvalStr avgE
      let sumS := rvalStr sumE
      some [s!"Average ABAP effort forecast: {avgS} hours",
            s!"Total ABAP effort forecast: {sumS} hours"]
    | none => some []).bind fun effortIns =>
  (getColumn df "Complexity").bind fun cvals =>
  (topCount cvals).bind fun ctop =>
  let cname := valStr ctop.1
  let cc := ctop.2
  let cp := pctStr cc total
  (getColumn df "Priority of Delivery").bind fun pvals =>
  (topCount pvals).bind fun ptop =>
  let pname := valStr ptop.1
  let pc := ptop.2
  let pp := pctStr pc total
  (getColumn df "Stage").bind fun svals =>
  (topCount svals).bind fun stop =>
  let sname := valStr stop.1
  let sc := stop.2
  let sp := pctStr sc total
  some
    ([ s!"Total WRICEF items: {total}",
       s!"Most common WRICEF type: {wname} ({wc} items, {wp}%)",
       s!"Largest implementation: {iname} ({ic} items, {ip}%)" ]
     ++ effortIns ++
     [ s!"Most common complexity: {cname} ({cc} items, {cp}%)",
       s!"Most common priority: {pname} ({pc} items, {pp}%)",
       s!"Most common stage: {sname} ({sc} items, {sp}%)" ])

/-- The fixed enumerations of `create_sample_data`. -/
def implementations : List String :=
  ["Catalyst", "Goldilocks (ANZ)", "EWM", "Supernova"]

/-- WRICEF type letters of `create_sample_data`. -/
def wricefTypes : List String := ["W", "R", "I", "C", "E", "F"]

/-- Complexity levels of `create_sample_data`. -/
def complexityLevels : List String := ["Low", "Medium", "High", "Very High"]

/-- Priority levels of `create_sample_data`. -/
def priorityLevels : List String := ["1 - High", "2 - Medium", "3 - Low"]

/-- Stage labels of `create_sample_data`. -/
def stageLabels : List String :=
  ["06 - Dev Completed", "04 - Dev in progress", "16 - FS Review in Progress",
   "13 - Deferred", "15 - No Development Required"]

/-- Process areas of the dashboard variant of `create_sample_data`. -/
def processAreas : List String :=
  ["STS", "RTR", "MDM", "PTM", "PTP", "LEX", "OTC", "EWM"]

/-- A linear congruential step. Modelled from the code: the numpy
Mersenne-Twister stream behind `np.random.seed(42)` is an external
library; it is modelled by a deterministic congruential generator so
that generation is a pure function of the seed, which is all the
loader contract relies on. -/
def lcg (s : Nat) : Nat := (s * 1664525 + 1013904223) % 4294967296

/-- The k-th pseudo-random draw for record i under the given seed. -/
def rnd (seed i k : Nat) : Nat := lcg (lcg (seed + 97 * i + 31 * k))

/-- `np.random.choice`: a uniform draw from a fixed enumeration. -/
def pick (l : List String) (r : Nat) : Value := Value.str (l.getD (r % l.length) "")

/-- `np.random.uniform(lo, lo+span)` rounded to one decimal. -/
def effortValue (lo span r : Nat) : Value :=
  Value.num ((lo : Rat) + ((r % (span * 10 + 1) : Nat) : Rat) / 10)

/-- A uniform date inside the fixed 2022-01-01 to 2024-12-31 window
(1096 calendar days, encoded as day offsets from the window start). -/
def dateValue (r : Nat) : Value := Value.date ((r % 1096 : Nat) : Int) 0

/-- Column names of the analysis-script sample data. -/
def visualizerCols : List String :=
  ["Implementation", "WRICEF Type", "Complexity", "Priority of Delivery", "Stage",
   "ABAP Effort Forecast (hrs)", "ABAP Actual Effort (hrs)",
   "PI Effort Forecast (hrs)", "PI Actual Effort (hrs)",
   "FSD Planned Del Date", "Dev Actual Delivery Date"]

/-- One record of `WRICEFDataVisualizer.create_sample_data`. -/
def syntheticRecord (seed i : Nat) : List Value :=
  [ pick implementations (rnd seed i 0),
    pick wricefTypes (rnd seed i 1),
    pick complexityLevels (rnd seed i 2),
    pick priorityLevels (rnd seed i 3),
    pick stageLabels (rnd seed i 4),
    effortValue 10 190 (rnd seed i 5),
    effortValue 10 190 (rnd seed i 6),
    effortValue 5 95 (rnd seed i 7),
    effortValue 5 95 (rnd seed i 8),
    dateValue (rnd seed i 9),
    dateValue (rnd seed i 10) ]

/-- `WRICEFDataVisualizer.create_sample_data`: n records drawn with the
fixed seed from the fixed enumerations, effort ranges and date window. -/
def syntheticGenerator (seed n : Nat) : Dataset :=
  ⟨visualizerCols, (List.range n).map (syntheticRecord seed)⟩

/-- Column names of the dashboard sample data. -/
def dashboardCols : List String :=
  ["Implementation", "Project Name", "WRICEF Type", "Complexity",
   "Priority of Delivery", "Stage", "Process Area",
   "ABAP Effort Forecast (hrs)", "ABAP Actual Effort (hrs)",
   "PI Effort Forecast (hrs)", "PI Actual Effort (hrs)",
   "FSD Planned Del Date", "Dev Actual Delivery Date",
   "Functional Owner", "Dev Lead"]

/-- One record of `StreamlitWRICEFDashboard.create_sample_data`. -/
def dashSyntheticRecord (seed i : Nat) : List Value :=
  [ pick implementations (rnd seed i 0),
    Value.str ("Project " ++ toString (i + 1)),
    pick wricefTypes (rnd seed i 1),
    pick complexityLevels (rnd seed i 2),
    pick priorityLevels (rnd seed i 3),
    pick stageLabels (rnd seed i 4),
    pick processAreas (rnd seed i 5),
    effortValue 10 190 (rnd seed i 6),
    effortValue 10 190 (rnd seed i 7),
    effortValue 5 95 (rnd seed i 8),
    effortValue 5 95 (rnd seed i 9),
    dateValue (rnd seed i 10),
    dateValue (rnd seed i 11),
    Value.str ("Owner " ++ toString (1 + rnd seed i 12 % 19)),
    Value.str ("Lead " ++ toString (1 + rnd seed i 13 % 14)) ]

/-- `StreamlitWRICEFDashboard.create_sample_data`. -/
def dashSyntheticGenerator (seed n : Nat) : Dataset :=
  ⟨dashboardCols, (List.range n).map (dashSyntheticRecord seed)⟩

/-- `WRICEFDataVisualizer.load_data`: the outcome of the external
spreadsheet parser is the input (`none` standing for any raised parse
error: missing file, bad format, unreadable sheet). On failure the
error is caught and the seeded sample data substituted; the returned
flag records whether the fallback message was emitted. -/
def visualizer_load_data (parseResult : Option Dataset) : Dataset × Bool :=
  match parseResult with
  | some df => (df, false)
  | none => (syntheticGenerator 42 500, true)

/-- `StreamlitWRICEFDashboard.load_data`: the outer `Option` is the
uploaded-file handle (`none` = no upload), the inner one the outcome
of parsing the upload. A failing upload reports an error and returns
`False` with `self.df` left unset; sample data is produced only when
there is no upload at all. The pair is (resulting dataset if any,
returned boolean). -/
def streamlit_load_data (uploaded : Option (Option Dataset)) : Option Dataset × Bool :=
  match uploaded with
  | some (some df) => (some df, true)
  | some none => (none, false)
  | none => (some (dashSyntheticGenerator 42 500), true)

/-- One categorical filter step of `create_filters`: rows whose cell
under `name` equals the selected value (a pandas equality mask, under
which a null or differently-typed cell compares unequal); `none` is
the KeyError on a missing column. -/
def maskEqCol (df : Dataset) (name sel : String) : Option Dataset :=
  if name ∈ df.cols then
    some ⟨df.cols, df.rows.filter (fun r => cellAt df.cols r name == Value.str sel)⟩
  else none

/-- One `if selected != "All"` guard of `create_filters`. -/
def condFilter (df : Dataset) (name sel : String) : Option Dataset :=
  if sel == "All" then some df else maskEqCol df name sel

/-- The date-range predicate of `create_filters`: the cell's calendar
day (ignoring time-of-day) must lie inclusively between the bounds; a
null date (NaT) satisfies neither comparison and is excluded. -/
def dateInRange (s e : Int) (v : Value) : Bool :=
  match v with
  | .date d _ => decide (s ≤ d) && decide (d ≤ e)
  | _ => false

/-- The date-range filter step of `create_filters` (lines 432-435). -/
def maskDateRange (df : Dataset) (name : String) (s e : Int) : Option Dataset :=
  if name ∈ df.cols then
    some ⟨df.cols, df.rows.filter (fun r => dateInRange s e (cellAt df.cols r name))⟩
  else none

/-- The four categorical filter steps of `create_filters`
(lines 418-428), in source order. -/
def applyCatFilters (df : Dataset) (impl wricef cplx prio : String) : Option Dataset :=
  (condFilter df "Implementation" impl).bind fun f1 =>
  (condFilter f1 "WRICEF Type" wricef).bind fun f2 =>
  (condFilter f2 "Complexity" cplx).bind fun f3 =>
  condFilter f3 "Priority of Delivery" prio

/-- The `if len(date_range) == 2` guard of `create_filters`
(line 430): the date predicate runs only when the supplied range has
exactly two bounds, and is skipped entirely otherwise. -/
def dateStep (df : Dataset) (dateRange : List Int) : Option Dataset :=
  match dateRange with
  | [s, e] => maskDateRange df "FSD Planned Del Date" s e
  | _ => some df

/-- The filter pipeline of `create_filters` (lines 415-439): the four
categorical filters, then the guarded date-range filter. The widget
construction around it is presentation and omitted. -/
def filterEngine (df : Dataset) (impl wricef cplx prio : String)
    (dateRange : List Int) : Option Dataset :=
  (applyCatFilters df impl wricef cplx prio).bind fun f => dateStep f dateRange

/-- A dataset with zero records but the full analysis-script schema. -/
def dfEmpty : Dataset := ⟨visualizerCols, []⟩

/-- A nonempty dataset missing the WRICEF Type column. -/
def dfMissing : Dataset := ⟨["Implementation"], [[.str "Catalyst"]]⟩

/-- A nonempty dataset with every column the full-analysis insight
generator touches except the ABAP effort column. -/
def dfNoEffort : Dataset :=
  ⟨["Implementation", "WRICEF Type", "Complexity", "Priority of Delivery",
    "Stage", "FSD Planned Del Date"],
   [[.str "Catalyst", .str "W", .str "Low", .str "1 - High",
     .str "06 - Dev Completed", .date 0 0]]⟩

/-- A dataset with one negative effort cell. -/
def dfNeg : Dataset := ⟨["ABAP Actual Effort (hrs)"], [[.num (-5)]]⟩

/-! ### Lemmas about the Preparer -/

lemma effort_not_date {n : String} (h : n ∈ effortCols) : containsDate n = false := by
  simp only [effortCols, List.mem_cons, List.not_mem_nil, or_false] at h
  rcases h with h | h | h | h <;> subst h <;> decide

lemma coerceNum_coerceNum (v : Value) : coerceNum (coerceNum v) = coerceNum v := by
  cases hp : parseNum v <;> simp only [coerceNum, hp] <;> rfl

lemma coerceDate_coerceDate (v : Value) : coerceDate (coerceDate v) = coerceDate v := by
  cases hp : parseDate v <;> simp only [coerceDate, hp] <;> rfl

lemma prepCell_idem (n : String) (v : Value) : prepCell n (prepCell n v) = prepCell n v := by
  by_cases he : n ∈ effortCols
  · simp [prepCell, effort_not_date he, he, coerceNum_coerceNum]
  · by_cases hd : containsDate n = true
    · simp [prepCell, hd, he, coerceDate_coerceDate]
    · simp [prepCell, hd, he]

lemma prepRow_cons (c : String) (cs : List String) (v : Value) (vs : List Value) :
    prepRow (c :: cs) (v :: vs) = prepCell c v :: prepRow cs vs := by
  simp [prepRow]

lemma prepRow_idem : ∀ (cols : List String) (r : List Value),
    prepRow cols (prepRow cols r) = prepRow cols r := by
  intro cols
  induction cols with
  | nil => intro r; simp [prepRow]
  | cons c cs ih =>
    intro r
    cases r with
    | nil => simp [prepRow]
    | cons v vs => simp [prepRow_cons, prepCell_idem, ih]

/-! ### Lemmas about column lookup -/

lemma colIndex_eq_none {cols : List String} {n : String} (h : n ∉ cols) :
    colIndex cols n = none := by
  induction cols with
  | nil => rfl
  | cons c cs ih =>
    have h1 : c ≠ n := fun hh => h (hh ▸ List.mem_cons_self c cs)
    have h2 : n ∉ cs := fun hh => h (List.mem_cons_of_mem _ hh)
    simp [colIndex, h1, ih h2]

lemma exists_colIndex_of_mem {cols : List String} {n : String} (h : n ∈ cols) :
    ∃ i, colIndex cols n = some i := by
  induction cols with
  | nil => simp at h
  | cons c cs ih =>
    by_cases hc : c = n
    · exact ⟨0, by simp [colIndex, hc]⟩
    · have : n ∈ cs := by
        rcases List.mem_cons.mp h with h1 | h1
        · exact absurd h1.symm hc
        · exact h1
      obtain ⟨i, hi⟩ := ih this
      exact ⟨i + 1, by simp [colIndex, hc, hi]⟩

lemma getColumn_eq_none {df : Dataset} {n : String} (h : n ∉ df.cols) :
    getColumn df n = none := by
  simp [getColumn, colIndex_eq_none h]

lemma mode0_nil : mode0 [] = none := rfl

lemma mapCongrMem {α β : Type} {f g : α → β} :
    ∀ {l : List α}, (∀ x ∈ l, f x = g x) → l.map f = l.map g := by
  intro l
  induction l with
  | nil => intro _; rfl
  | cons x xs ih =>
    intro h
    simp only [List.map_cons]
    rw [h x (List.mem_cons_self x xs), ih (fun y hy => h y (List.mem_cons_of_mem _ hy))]

lemma prepRow_getD : ∀ (cols : List String) (r : List Value) (i : Nat) (name : String),
    colIndex cols name = some i → r.length = cols.length →
    (prepRow cols r).getD i Value.null = prepCell name (r.getD i Value.null) := by
  intro cols
  induction cols with
  | nil => intro r i name h _; simp [colIndex] at h
  | cons c cs ih =>
    intro r i name h hlen
    cases r with
    | nil => simp at hlen
    | cons v vs =>
      by_cases hc : c = name
      · rw [colIndex, if_pos (by simp [hc])] at h
        injection h with h0
        subst hc
        rw [← h0]
        simp [prepRow_cons]
      · rw [colIndex, if_neg (by simp [hc])] at h
        obtain ⟨j, hj, hij⟩ := Option.map_eq_some'.mp h
        subst hij
        have hlen2 : vs.length = cs.length := by
          simpa using hlen
        simp only [prepRow_cons, List.getD_cons_succ]
        exact ih vs j name hj hlen2

/-! ### Claim C5 -/

/-- C5: applying the Preparer twice yields the same Dataset as applying
it once (date coercion with invalid values becoming null and effort
coercion with invalid values becoming 0 are idempotent). -/
theorem prepare_idempotent (df : Dataset) : prepare (prepare df) = prepare df := by
  cases df with
  | mk cols rows =>
    simp only [prepare, List.map_map]
    congr 1
    induction rows with
    | nil => rfl
    | cons r rs ih =>
      simp only [List.map_cons, Function.comp_apply, List.cons.injEq]
      exact ⟨prepRow_idem cols r, ih⟩

/-! ### Claim C6 -/

/-- C6 (amended): after the Preparer runs, every value of a present
effort column is numeric, obtained cell-wise by the numeric coercion,
and every cell that fails to parse as a number becomes exactly 0.
(The original claim also asserted the values are all nonnegative; the
coercion does not clamp, see the counterexample.) -/
theorem prepare_effort_numeric (df : Dataset) (name : String) (hwf : Wf df)
    (he : name ∈ effortCols) (hc : name ∈ df.cols) :
    ∃ orig, getColumn df name = some orig ∧
      getColumn (prepare df) name = some (orig.map coerceNum) ∧
      ∀ v ∈ orig, (∃ q, coerceNum v = Value.num q) ∧
        (parseNum v = none → coerceNum v = Value.num 0) := by
  obtain ⟨i, hi⟩ := exists_colIndex_of_mem hc
  refine ⟨df.rows.map (fun r => r.getD i Value.null), ?_, ?_, ?_⟩
  · simp [getColumn, hi]
  · have h1 : getColumn (prepare df) name =
        some ((df.rows.map (prepRow df.cols)).map (fun r => r.getD i Value.null)) := by
      simp [getColumn, prepare, hi]
    rw [h1, List.map_map, List.map_map]
    congr 1
    apply mapCongrMem
    intro r hr
    simp only [Function.comp_apply]
    rw [prepRow_getD df.cols r i name hi (hwf r hr)]
    simp [prepCell, effort_not_date he, he]
  · intro v _
    constructor
    · unfold coerceNum
      cases parseNum v
      · exact ⟨0, rfl⟩
      · exact ⟨_, rfl⟩
    · intro hp
      simp [coerceNum, hp]

/-- C6 witness: the amended statement applied to a concrete dataset
with one effort cell. -/
theorem prepare_effort_numeric_witness :
    ∃ orig, getColumn dfNeg "ABAP Actual Effort (hrs)" = some orig ∧
      getColumn (prepare dfNeg) "ABAP Actual Effort (hrs)" = some (orig.map coerceNum) ∧
      ∀ v ∈ orig, (∃ q, coerceNum v = Value.num q) ∧
        (parseNum v = none → coerceNum v = Value.num 0) :=
  prepare_effort_numeric dfNeg "ABAP Actual Effort (hrs)" (by decide) (by decide) (by decide)

/-- C6 counterexample: the Preparer does not make effort values
nonnegative: a parseable negative cell survives as a negative number,
contradicting the claim that every prepared effort value is at least 0. -/
theorem prepare_negative_effort_cex :
    getColumn (prepare dfNeg) "ABAP Actual Effort (hrs)" = some [Value.num (-5)] ∧
    (-5 : Rat) < 0 := by decide

/-! ### Claim C1 -/

/-- C1 (amended): on a dataset with zero records both insight
generators raise (taking the first element of the empty mode of the
WRICEF Type column fails) instead of returning an empty or
no-data-marked insight list; the empty case is unguarded. -/
theorem aggregator_empty_dataset_raises (df : Dataset) (h : df.rows = []) :
    streamlit_generate_insights df = none ∧ visualizer_generate_insights df = none := by
  constructor
  · unfold streamlit_generate_insights
    cases hc : colIndex df.cols "WRICEF Type" with
    | none =>
      have h1 : getColumn df "WRICEF Type" = none := by simp [getColumn, hc]
      rw [h1]
      exact rfl
    | some i =>
      have h1 : getColumn df "WRICEF Type" = some ([] : List Value) := by
        simp [getColumn, hc, h]
      rw [h1]
      exact rfl
  · unfold visualizer_generate_insights
    cases hc : colIndex df.cols "WRICEF Type" with
    | none =>
      have h1 : getColumn df "WRICEF Type" = none := by simp [getColumn, hc]
      rw [h1]
      exact rfl
    | some i =>
      have h1 : getColumn df "WRICEF Type" = some ([] : List Value) := by
        simp [getColumn, hc, h]
      rw [h1]
      exact rfl

/-- C1 witness: the amended statement at the concrete empty dataset. -/
theorem aggregator_empty_dataset_raises_witness :
    streamlit_generate_insights dfEmpty = none :=
  (aggregator_empty_dataset_raises dfEmpty rfl).1

/-- C1 counterexample: on the concrete zero-record dataset both insight
generators raise (modelled as `none`) rather than returning an empty or
no-data insight list as the claim requires. -/
theorem aggregator_empty_dataset_cex :
    streamlit_generate_insights dfEmpty = none ∧
    visualizer_generate_insights dfEmpty = none := by decide

/-! ### Claim C2 -/

/-- C2 counterexample: in the dashboard variant a failing uploaded file
does not substitute the synthetic dataset; the loader reports failure
and leaves the caller with no dataset at all. -/
theorem loader_upload_failure_no_dataset_cex :
    (streamlit_load_data (some none)).1 = none := rfl

/-- C2 (amended): the script-variant Loader substitutes the seed-42
500-record synthetic dataset on any parse failure, so its caller
always has a dataset; the dashboard-variant Loader substitutes the
synthetic dataset only when no file was uploaded, and on a failing
upload returns failure with no dataset. -/
theorem loader_fallback_behavior :
    visualizer_load_data none = (syntheticGenerator 42 500, true)
    ∧ (∀ df, visualizer_load_data (some df) = (df, false))
    ∧ streamlit_load_data (some none) = (none, false)
    ∧ streamlit_load_data none = (some (dashSyntheticGenerator 42 500), true)
    ∧ (∀ df, streamlit_load_data (some (some df)) = (some df, true)) :=
  ⟨rfl, fun _ => rfl, rfl, rfl, fun _ => rfl⟩

/-! ### Claim C3 -/

/-- C3 (amended): only the ABAP-effort statements of the full-analysis
variant are guarded by a column-presence check (when that column is
absent they are skipped and the remaining six statements are still
produced); a missing WRICEF Type column makes both insight generators
raise instead of omitting the dependent statement. -/
theorem insights_missing_column_raises :
    (∀ df, "WRICEF Type" ∉ df.cols →
      streamlit_generate_insights df = none ∧ visualizer_generate_insights df = none)
    ∧ (visualizer_generate_insights dfNoEffort).map List.length = some 6 := by
  constructor
  · intro df h
    have hg : getColumn df "WRICEF Type" = none := getColumn_eq_none h
    constructor
    · unfold streamlit_generate_insights
      simp [hg]
    · unfold visualizer_generate_insights
      simp [hg]
  · decide

/-- C3 witness: the amended statement at a concrete dataset missing
the WRICEF Type column. -/
theorem insights_missing_column_raises_witness :
    streamlit_generate_insights dfMissing = none :=
  (insights_missing_column_raises.1 dfMissing (by decide)).1

/-- C3 counterexample: on a concrete nonempty dataset missing the
WRICEF Type column, both insight generators raise (modelled as `none`)
instead of skipping the dependent statement as the claim requires. -/
theorem insights_missing_column_cex :
    streamlit_generate_insights dfMissing = none ∧
    visualizer_generate_insights dfMissing = none := by decide
/-! ### Lemmas about the Filter Engine -/

/-- A concrete dataset for the filter claims: two Catalyst rows with
timestamps (days 10 and 20, one with a nonzero time-of-day) and one
row with a null planned-delivery date. -/
def sampleCols : List String :=
  ["Implementation", "WRICEF Type", "Complexity", "Priority of Delivery",
   "FSD Planned Del Date"]

/-- First sample row (Catalyst, date day 10). -/
def sRow1 : List Value :=
  [.str "Catalyst", .str "W", .str "Low", .str "1 - High", .date 10 0]

/-- Second sample row (EWM, null date). -/
def sRow2 : List Value :=
  [.str "EWM", .str "R", .str "High", .str "2 - Medium", .null]

/-- Third sample row (Catalyst, date day 20 with a time-of-day). -/
def sRow3 : List Value :=
  [.str "Catalyst", .str "I", .str "Medium", .str "1 - High", .date 20 5]

/-- The three-row sample dataset. -/
def sampleDF : Dataset := ⟨sampleCols, [sRow1, sRow2, sRow3]⟩

/-- The sample dataset narrowed to day range [0, 15]. -/
def outD : Dataset := ⟨sampleCols, [sRow1]⟩

lemma maskEqCol_some {df : Dataset} {n sel : String} {out : Dataset}
    (h : maskEqCol df n sel = some out) :
    out.cols = df.cols ∧ out.rows.Sublist df.rows := by
  unfold maskEqCol at h
  split at h
  · injection h with h1
    subst h1
    exact ⟨rfl, List.filter_sublist _⟩
  · exact Option.noConfusion h

lemma condFilter_some {df : Dataset} {n sel : String} {out : Dataset}
    (h : condFilter df n sel = some out) :
    out.cols = df.cols ∧ out.rows.Sublist df.rows := by
  unfold condFilter at h
  split at h
  · injection h with h1
    subst h1
    exact ⟨rfl, List.Sublist.refl _⟩
  · exact maskEqCol_some h

lemma applyCatFilters_some {df : Dataset} {i w c p : String} {out : Dataset}
    (h : applyCatFilters df i w c p = some out) :
    out.cols = df.cols ∧ out.rows.Sublist df.rows := by
  unfold applyCatFilters at h
  obtain ⟨f1, h1, h⟩ := Option.bind_eq_some.mp h
  obtain ⟨f2, h2, h⟩ := Option.bind_eq_some.mp h
  obtain ⟨f3, h3, h4⟩ := Option.bind_eq_some.mp h
  have c1 := condFilter_some h1
  have c2 := condFilter_some h2
  have c3 := condFilter_some h3
  have c4 := condFilter_some h4
  exact ⟨by rw [c4.1, c3.1, c2.1, c1.1],
    ((c4.2.trans c3.2).trans c2.2).trans c1.2⟩

lemma maskDateRange_some {df : Dataset} {n : String} {s e : Int} {out : Dataset}
    (h : maskDateRange df n s e = some out) :
    out.cols = df.cols ∧
    out.rows = df.rows.filter (fun r => dateInRange s e (cellAt df.cols r n)) := by
  unfold maskDateRange at h
  split at h
  · injection h with h1
    subst h1
    exact ⟨rfl, rfl⟩
  · exact Option.noConfusion h

lemma dateStep_some {df : Dataset} {dr : List Int} {out : Dataset}
    (h : dateStep df dr = some out) :
    out.cols = df.cols ∧ out.rows.Sublist df.rows := by
  rcases dr with _ | ⟨a, _ | ⟨b, _ | ⟨c, tl⟩⟩⟩
  · injection h with h1; subst h1; exact ⟨rfl, List.Sublist.refl _⟩
  · injection h with h1; subst h1; exact ⟨rfl, List.Sublist.refl _⟩
  · obtain ⟨h1, h2⟩ := maskDateRange_some h
    exact ⟨h1, h2 ▸ List.filter_sublist _⟩
  · injection h with h1; subst h1; exact ⟨rfl, List.Sublist.refl _⟩

lemma filterEngine_some {df : Dataset} {i w c p : String} {dr : List Int} {out : Dataset}
    (h : filterEngine df i w c p dr = some out) :
    out.cols = df.cols ∧ out.rows.Sublist df.rows := by
  unfold filterEngine at h
  obtain ⟨f, hf, h2⟩ := Option.bind_eq_some.mp h
  have cf := applyCatFilters_some hf
  have ds := dateStep_some h2
  exact ⟨by rw [ds.1, cf.1], ds.2.trans cf.2⟩

lemma applyCat_all (df : Dataset) :
    applyCatFilters df "All" "All" "All" "All" = some df := rfl

lemma filterEngine_pair_mem {df : Dataset} {i w c p : String} {s e : Int}
    {out : Dataset} (h : filterEngine df i w c p [s, e] = some out)
    {r : List Value} (hr : r ∈ out.rows) :
    dateInRange s e (cellAt out.cols r "FSD Planned Del Date") = true := by
  unfold filterEngine at h
  obtain ⟨f, hf, h2⟩ := Option.bind_eq_some.mp h
  have h3 : maskDateRange f "FSD Planned Del Date" s e = some out := h2
  obtain ⟨hcols, hrows⟩ := maskDateRange_some h3
  rw [hrows] at hr
  rw [hcols]
  simpa using (List.mem_filter.mp hr).2

/-! ### Claim C4 -/

/-- C4: with every categorical parameter at the "All" sentinel and no
two-bound date range supplied, the filter pipeline returns the dataset
unchanged (filtering with no active constraint is the identity). -/
theorem filter_all_sentinels_identity (df : Dataset) (dr : List Int)
    (h : dr.length ≠ 2) :
    filterEngine df "All" "All" "All" "All" dr = some df := by
  unfold filterEngine
  rw [applyCat_all, Option.some_bind]
  rcases dr with _ | ⟨a, _ | ⟨b, _ | ⟨c, tl⟩⟩⟩
  · rfl
  · rfl
  · exact absurd rfl h
  · rfl

/-- C4 witness: identity of the unconstrained filter on the concrete
sample dataset. -/
theorem filter_all_sentinels_identity_witness :
    filterEngine sampleDF "All" "All" "All" "All" [] = some sampleDF :=
  filter_all_sentinels_identity sampleDF [] (by decide)

/-! ### Claim C8 -/

/-- C8: the filter output contains only records of the input, none
synthesized or duplicated, in the original relative order (its row
list is a sublist of the input row list), for every parameter set. -/
theorem filter_sublist_of_input (df : Dataset) (i w c p : String) (dr : List Int)
    (out : Dataset) (h : filterEngine df i w c p dr = some out) :
    out.rows.Sublist df.rows :=
  (filterEngine_some h).2

/-- C8 witness: the Catalyst-filtered sample rows form a sublist of the
sample rows. -/
theorem filter_sublist_of_input_witness :
    (Dataset.mk sampleCols [sRow1, sRow3]).rows.Sublist sampleDF.rows :=
  filter_sublist_of_input sampleDF "Catalyst" "All" "All" "All" []
    ⟨sampleCols, [sRow1, sRow3]⟩ (by decide)

/-! ### Claim C9 -/

/-- C9: with an active two-bound date range [s, e] every surviving
record's planned-delivery cell is a timestamp whose calendar day lies
between s and e inclusively (the comparison ignores time-of-day); and
when the supplied range does not have exactly two bounds the date
predicate is skipped entirely. -/
theorem filter_date_range_inclusive :
    (∀ df i w c p (s e : Int) out, filterEngine df i w c p [s, e] = some out →
      ∀ r ∈ out.rows, ∃ d t,
        cellAt out.cols r "FSD Planned Del Date" = Value.date d t ∧ s ≤ d ∧ d ≤ e)
    ∧ (∀ df i w c p (dr : List Int), dr.length ≠ 2 →
      filterEngine df i w c p dr = applyCatFilters df i w c p) := by
  constructor
  · intro df i w c p s e out h r hr
    have hmem := filterEngine_pair_mem h hr
    cases hcell : cellAt out.cols r "FSD Planned Del Date" with
    | date d t =>
      rw [hcell] at hmem
      simp only [dateInRange, Bool.and_eq_true, decide_eq_true_eq] at hmem
      exact ⟨d, t, rfl, hmem.1, hmem.2⟩
    | str s' => rw [hcell] at hmem; simp [dateInRange] at hmem
    | num q => rw [hcell] at hmem; simp [dateInRange] at hmem
    | null => rw [hcell] at hmem; simp [dateInRange] at hmem
  · intro df i w c p dr h
    unfold filterEngine
    cases hac : applyCatFilters df i w c p with
    | none => rfl
    | some f =>
      rw [Option.some_bind]
      rcases dr with _ | ⟨a, _ | ⟨b, _ | ⟨c', tl⟩⟩⟩
      · rfl
      · rfl
      · exact absurd rfl h
      · rfl

/-- C9 witness: both parts at the concrete sample dataset (range
[0, 15] keeps exactly the day-10 row, whose day is inside the bounds;
an empty range skips the date predicate). -/
theorem filter_date_range_inclusive_witness :
    (∃ d t, cellAt outD.cols sRow1 "FSD Planned Del Date" = Value.date d t ∧
      (0 : Int) ≤ d ∧ d ≤ 15) ∧
    filterEngine sampleDF "All" "All" "All" "All" [] =
      applyCatFilters sampleDF "All" "All" "All" "All" :=
  ⟨filter_date_range_inclusive.1 sampleDF "All" "All" "All" "All" 0 15 outD
      (by decide) sRow1 (by decide),
    filter_date_range_inclusive.2 sampleDF "All" "All" "All" "All" [] (by decide)⟩

/-! ### Claim C10 -/

/-- C10: an active two-bound date range excludes every record whose
planned-delivery date is null (NaT satisfies neither inclusive
comparison), so on any dataset containing a null-dated record the
filter with a two-bound range is not the identity, even when the
bounds span the full observed range. -/
theorem filter_excludes_null_dates :
    (∀ df i w c p (s e : Int) out, filterEngine df i w c p [s, e] = some out →
      ∀ r ∈ out.rows, cellAt out.cols r "FSD Planned Del Date" ≠ Value.null)
    ∧ (∀ df (s e : Int) r0, r0 ∈ df.rows →
      cellAt df.cols r0 "FSD Planned Del Date" = Value.null →
      filterEngine df "All" "All" "All" "All" [s, e] ≠ some df) := by
  constructor
  · intro df i w c p s e out h r hr hnull
    have hmem := filterEngine_pair_mem h hr
    rw [hnull] at hmem
    simp [dateInRange] at hmem
  · intro df s e r0 hr0 hnull hcontra
    unfold filterEngine at hcontra
    rw [applyCat_all, Option.some_bind] at hcontra
    have hcontra2 : maskDateRange df "FSD Planned Del Date" s e = some df := hcontra
    unfold maskDateRange at hcontra2
    split at hcontra2
    · injection hcontra2 with h1
      have hrows : df.rows.filter
          (fun r => dateInRange s e (cellAt df.cols r "FSD Planned Del Date")) = df.rows :=
        congrArg Dataset.rows h1
      have hall := (List.filter_eq_self.mp hrows) r0 hr0
      rw [hnull] at hall
      simp [dateInRange] at hall
    · exact Option.noConfusion hcontra2

/-- C10 witness: with the null-dated sample row present, the full-range
filter is not the identity on the sample dataset. -/
theorem filter_excludes_null_dates_witness :
    filterEngine sampleDF "All" "All" "All" "All" [0, 100] ≠ some sampleDF :=
  filter_excludes_null_dates.2 sampleDF 0 100 sRow2 (by decide) (by decide)
/-! ### Lemmas about the efficiency aggregate -/

/-- A concrete dataset whose second record has forecast 0: the ratio
column is [1/1, 2/0] = [1, inf]. -/
def dfEff : Dataset :=
  ⟨["ABAP Actual Effort (hrs)", "ABAP Effort Forecast (hrs)"],
   [[.num 1, .num 1], [.num 2, .num 0]]⟩

lemma mapOpt_some_char {α β : Type} (f : α → Option β) :
    ∀ (l : List α), (∀ x ∈ l, (f x).isSome) →
      ∃ ys, mapOpt f l = some ys ∧
        (∀ y ∈ ys, ∃ x ∈ l, f x = some y) ∧
        (∀ x ∈ l, ∀ y, f x = some y → y ∈ ys) := by
  intro l
  induction l with
  | nil => intro _; exact ⟨[], rfl, by simp, by simp⟩
  | cons a as ih =>
    intro h
    obtain ⟨b, hb⟩ := Option.isSome_iff_exists.mp (h a (List.mem_cons_self a as))
    obtain ⟨ys, hys, hmem, hall⟩ := ih (fun x hx => h x (List.mem_cons_of_mem _ hx))
    refine ⟨b :: ys, ?_, ?_, ?_⟩
    · simp [mapOpt, hb, hys]
    · intro y hy
      rcases List.mem_cons.mp hy with h1 | h1
      · exact ⟨a, List.mem_cons_self a as, h1 ▸ hb⟩
      · obtain ⟨x, hx, hfx⟩ := hmem y h1
        exact ⟨x, List.mem_cons_of_mem _ hx, hfx⟩
    · intro x hx y hfy
      rcases List.mem_cons.mp hx with h1 | h1
      · subst h1
        rw [hb] at hfy
        injection hfy with h2
        exact h2 ▸ List.mem_cons_self b ys
      · exact List.mem_cons_of_mem _ (hall x h1 y hfy)

lemma foldl_radd_pinf : ∀ (xs : List RVal) (acc : RVal),
    (acc = .pinf ∨ ∃ q, acc = .fin q) →
    (∀ x ∈ xs, x = .pinf ∨ ∃ q, x = .fin q) →
    (acc = .pinf ∨ .pinf ∈ xs) →
    xs.foldl radd acc = .pinf := by
  intro xs
  induction xs with
  | nil =>
    intro acc _ _ hp
    rcases hp with h1 | h1
    · simpa using h1
    · exact absurd h1 (List.not_mem_nil _)
  | cons x xs ih =>
    intro acc hacc hxs hp
    rw [List.foldl_cons]
    have hx := hxs x (List.mem_cons_self x xs)
    refine ih (radd acc x) ?_ (fun y hy => hxs y (List.mem_cons_of_mem _ hy)) ?_
    · rcases hacc with h1 | ⟨q, h1⟩ <;> rcases hx with h2 | ⟨q2, h2⟩ <;> subst h1 <;> subst h2
      · exact Or.inl rfl
      · exact Or.inl rfl
      · exact Or.inl rfl
      · exact Or.inr ⟨q + q2, rfl⟩
    · rcases hp with h1 | h1
      · subst h1
        rcases hx with h2 | ⟨q2, h2⟩ <;> subst h2 <;> exact Or.inl rfl
      · rcases List.mem_cons.mp h1 with h2 | h2
        · subst h2
          rcases hacc with h3 | ⟨q, h3⟩ <;> subst h3 <;> exact Or.inl rfl
        · exact Or.inr h2

/-! ### Claim C7 -/

/-- C7 (amended): the effort-efficiency insight is the mean of the
actual/forecast ratio over all records, not only those with nonzero
forecast, and it is not guarded against a zero denominator: whenever
the two effort columns are numeric, some record has forecast 0 with
positive actual effort, and no record has forecast 0 with negative
actual effort, the infinite ratio is silently included and the
reported mean is +infinity (no record is excluded and nothing is
raised). -/
theorem effort_efficiency_unguarded (df : Dataset) (av fv : List Value)
    (ha : getColumn df "ABAP Actual Effort (hrs)" = some av)
    (hf : getColumn df "ABAP Effort Forecast (hrs)" = some fv)
    (hnum : ∀ p ∈ av.zip fv, p.1.isNum = true ∧ p.2.isNum = true)
    (hzero : ∃ p ∈ av.zip fv, p.2 = Value.num 0 ∧ 0 < numOf p.1)
    (hnoneg : ∀ p ∈ av.zip fv, p.2 = Value.num 0 → 0 ≤ numOf p.1) :
    effortEfficiency df = some RVal.pinf := by
  unfold effortEfficiency
  rw [ha, Option.some_bind, hf, Option.some_bind]
  have hsome : ∀ p ∈ av.zip fv, ((fun p : Value × Value => divCell p.1 p.2) p).isSome := by
    intro p hp
    obtain ⟨h1, h2⟩ := hnum p hp
    show (divCell p.1 p.2).isSome = true
    cases hp1 : p.1 <;> rw [hp1] at h1 <;> try simp [Value.isNum] at h1
    cases hp2 : p.2 <;> rw [hp2] at h2 <;> try simp [Value.isNum] at h2
    simp [divCell]
  obtain ⟨ys, hys, hmemy, hally⟩ := mapOpt_some_char _ (av.zip fv) hsome
  rw [hys, Option.map_some']
  have hshape : ∀ y ∈ ys, y = .pinf ∨ (∃ q, y = .fin q) ∨ y = .nan := by
    intro y hy
    obtain ⟨p, hp, hdiv⟩ := hmemy y hy
    have hdiv2 : divCell p.1 p.2 = some y := hdiv
    obtain ⟨h1, h2⟩ := hnum p hp
    cases hp1 : p.1 <;> rw [hp1] at h1 <;> try simp [Value.isNum] at h1
    cases hp2 : p.2 <;> rw [hp2] at h2 <;> try simp [Value.isNum] at h2
    rename_i a b
    rw [hp1, hp2] at hdiv2
    simp only [divCell] at hdiv2
    injection hdiv2 with h3
    by_cases hb : b = 0
    · by_cases hapos : 0 < a
      · left
        rw [← h3]
        simp [divR, hb, hapos]
      · have hge : 0 ≤ a := by
          have := hnoneg p hp (by rw [hp2, hb])
          rwa [hp1, numOf] at this
        have ha0 : a = 0 := le_antisymm (not_lt.mp hapos) hge
        right; right
        rw [← h3]
        simp [divR, hb, ha0]
    · right; left
      exact ⟨a / b, by rw [← h3]; simp [divR, hb]⟩
  have hpinf : RVal.pinf ∈ ys := by
    obtain ⟨p, hp, hp2, hpos⟩ := hzero
    obtain ⟨h1, _⟩ := hnum p hp
    cases hp1 : p.1 <;> rw [hp1] at h1 <;> try simp [Value.isNum] at h1
    rename_i a
    rw [hp1, numOf] at hpos
    refine hally p hp RVal.pinf ?_
    show divCell p.1 p.2 = some RVal.pinf
    rw [hp1, hp2]
    simp [divCell, divR, hpos]
  unfold meanRVal
  have hpz : RVal.pinf ∈ ys.filter (fun v => ! v.isNan) :=
    List.mem_filter.mpr ⟨hpinf, by simp [RVal.isNan]⟩
  have hshape2 : ∀ x ∈ ys.filter (fun v => ! v.isNan),
      x = RVal.pinf ∨ ∃ q, x = RVal.fin q := by
    intro x hx
    obtain ⟨hx1, hx2⟩ := List.mem_filter.mp hx
    rcases hshape x hx1 with h1 | h1 | h1
    · exact Or.inl h1
    · exact Or.inr h1
    · subst h1; simp [RVal.isNan] at hx2
  have hnil : ys.filter (fun v => ! v.isNan) ≠ [] := by
    intro hh
    rw [hh] at hpz
    exact absurd hpz (List.not_mem_nil _)
  rw [if_neg (by simpa [List.isEmpty_iff] using hnil)]
  have hsum : rsum (ys.filter (fun v => ! v.isNan)) = RVal.pinf :=
    foldl_radd_pinf _ (.fin 0) (Or.inr ⟨0, rfl⟩) hshape2 (Or.inr hpz)
  rw [hsum]
  rfl

/-- C7 witness: the amended statement at the concrete dataset with
ratios [1, inf]: the mean is +infinity. -/
theorem effort_efficiency_unguarded_witness :
    effortEfficiency dfEff = some RVal.pinf :=
  effort_efficiency_unguarded dfEff
    [Value.num 1, Value.num 2] [Value.num 1, Value.num 0]
    (by decide) (by decide) (by decide) (by decide) (by decide)

/-- C7 counterexample: on the concrete dataset with ratios [1, inf]
the implemented aggregate (mean over all records, infinity included)
differs from the mean over the records with nonzero forecast that the
claim specifies. -/
theorem effort_efficiency_cex :
    effortEfficiency dfEff = some RVal.pinf ∧
    (effortEfficiencySpec dfEff == some RVal.pinf) = false := by decide
